import Mathlib

/-!
Shallow embedding of the motor controller and supervisory state machine of the
Copia-motores repository, with theorems checking the specified properties.

Machine integers: `position`, `objective`, `min_pos`, `max_pos` are `uint16_t`
in the source; every mutation of `position` is guarded (`position > min_pos`
before `--`, `position < max_pos` before `++`), so no wrap can occur and `Nat`
is a faithful model.  The LEDC duty writes and the PHASE pin write are modelled
by the fields `duty` and `ph` recording the last value written.
-/

set_option maxHeartbeats 1000000

/-- Opening direction (`#define ABRIR false` in motores.h). -/
def ABRIR : Bool := false

/-- Closing direction (`#define CERRAR true` in motores.h). -/
def CERRAR : Bool := true

/-- State of `class motorController` (src/main/motores.h), restricted to the
fields the position/drive logic reads or writes.  `duty` models the value last
written through `ledc_set_duty`/`ledc_update_duty`; `ph` models the PHASE pin
level last written through `gpio_set_level`. -/
structure motorController where
  max_pos : Nat
  min_pos : Nat
  last_state : Bool
  position : Nat
  «until» : Bool
  objective : Nat
  duty : Nat
  ph : Bool
deriving DecidableEq

/-- `motorController::stop_rotation`: clears the until flag and writes duty 0. -/
def motorController.stop_rotation (m : motorController) : motorController :=
  { m with «until» := false, duty := 0 }

/-- `motorController::step` (src/main/motores.h lines 186-214).  `A` and `B`
are the levels read from the DT and CLK pins at entry. -/
def motorController.step (m : motorController) (A B : Bool) : motorController :=
  let m1 :=
    if A ≠ m.last_state then
      if B = A then
        if m.min_pos < m.position then { m with position := m.position - 1 }
        else m.stop_rotation
      else
        if m.position < m.max_pos then { m with position := m.position + 1 }
        else m.stop_rotation
    else m
  let m2 := if m1.«until» ∧ m1.position = m1.objective then m1.stop_rotation else m1
  { m2 with last_state := A }

/-- `motorController::start_rotation` (src/main/motores.h lines 226-262).
Returns the new state together with the `arrivedToLimit` flag. -/
def motorController.start_rotation (m : motorController) (direction : Bool)
    (velocity : Nat) : motorController × Bool :=
  if direction = ABRIR then
    if m.min_pos < m.position then
      ({ m with duty := velocity, ph := direction }, false)
    else
      (m.stop_rotation, true)
  else
    if m.position < m.max_pos then
      ({ m with duty := velocity, ph := direction }, false)
    else
      (m.stop_rotation, true)

/-- `motorController::start_until` (src/main/motores.h lines 264-296).
Returns the new state together with `arrivedToObjective || arrivedToLimit`. -/
def motorController.start_until (m : motorController) (direction : Bool)
    (objective velocity : Nat) : motorController × Bool :=
  let m0 := { m with objective := objective, «until» := true }
  if direction = ABRIR then
    if m0.objective < m0.position then
      m0.start_rotation direction velocity
    else
      (m0.stop_rotation, true)
  else
    if m0.position < m0.objective then
      m0.start_rotation direction velocity
    else
      (m0.stop_rotation, true)

/-- `enum Estado_Protesis` (src/main/maquina_de_estados_esquizofrenica.h). -/
inductive Estado_Protesis where
  | ESTADO_NORMAL
  | ESTADO_DESCANSO
  | ESTADO_SEGURIDAD
  | ESTADO_CALIBRADO_UMBRALES
  | ESTADO_CALIBRADO_MOTORES
deriving DecidableEq

export Estado_Protesis (ESTADO_NORMAL ESTADO_DESCANSO ESTADO_SEGURIDAD
  ESTADO_CALIBRADO_UMBRALES ESTADO_CALIBRADO_MOTORES)

/-- `enum Fase_Estado` (src/main/maquina_de_estados_esquizofrenica.h). -/
inductive Fase_Estado where
  | FASE_PAUSA
  | FASE_PASO_1
  | FASE_PASO_2
  | FASE_CAMBIO_ESTADO
deriving DecidableEq

export Fase_Estado (FASE_PAUSA FASE_PASO_1 FASE_PASO_2 FASE_CAMBIO_ESTADO)

/-- `enum Causa_Seguridad` (src/main/maquina_de_estados_esquizofrenica.h). -/
inductive Causa_Seguridad where
  | causas_ninguna
  | causa_sobrecorriente
  | causa_sobrecalentameinto
  | causa_velocidad_excesiva
  | causa_fuerza_excesiva
  | causa_perdida_sensores
  | causa_error_encoder
deriving DecidableEq

export Causa_Seguridad (causas_ninguna causa_sobrecorriente causa_sobrecalentameinto
  causa_velocidad_excesiva causa_fuerza_excesiva causa_perdida_sensores causa_error_encoder)

/-- `struct Condiciones_Seguridad` (src/main/maquina_de_estados_esquizofrenica.h).
The four analog readings and their thresholds are `float` in the source; they
are modelled as `ℚ`, which is faithful for the order comparisons the code
performs (all constants involved are exactly representable). -/
structure Condiciones_Seguridad where
  -- field name from the source is señal_sensores; ñ is not a Lean identifier character
  corriente_motores : ℚ
  temperatura : ℚ
  velocidad : ℚ
  fuerza : ℚ
  senal_sensores : Bool
  posicion : Bool
  umbral_corriente : ℚ
  umbral_temperatura : ℚ
  umbral_velocidad : ℚ
  umbral_fuerza : ℚ
deriving DecidableEq

/-- The default values set by the `Condiciones_Seguridad` constructor. -/
def Condiciones_Seguridad.init : Condiciones_Seguridad :=
  { corriente_motores := 0
    temperatura := 20
    velocidad := 0
    fuerza := 0
    senal_sensores := true
    posicion := true
    umbral_corriente := 2
    umbral_temperatura := 60
    umbral_velocidad := 100
    umbral_fuerza := 50 }

/-- `Condiciones_Seguridad::Verificar_Causas` (lines 127-162): sequence of
early returns, translated as nested conditionals. -/
def Condiciones_Seguridad.Verificar_Causas (c : Condiciones_Seguridad) : Causa_Seguridad :=
  if c.senal_sensores = false then causa_perdida_sensores
  else if c.posicion = false then causa_error_encoder
  else if c.umbral_corriente < c.corriente_motores then causa_sobrecorriente
  else if c.umbral_temperatura < c.temperatura then causa_sobrecalentameinto
  else if c.umbral_velocidad < c.velocidad then causa_velocidad_excesiva
  else if c.umbral_fuerza < c.fuerza then causa_fuerza_excesiva
  else causas_ninguna

/-- The six supervised checks of `Verificar_Causas` in their source order,
written from the spec wording for the first-match (refinement) comparison:
"apply the fixed precedence order — sensor loss, encoder fault, overcurrent,
overtemperature, excessive speed, excessive force, else None". -/
def Condiciones_Seguridad.causa_checks (c : Condiciones_Seguridad) : List (Bool × Causa_Seguridad) :=
  [(!c.senal_sensores, causa_perdida_sensores),
   (!c.posicion, causa_error_encoder),
   (decide (c.umbral_corriente < c.corriente_motores), causa_sobrecorriente),
   (decide (c.umbral_temperatura < c.temperatura), causa_sobrecalentameinto),
   (decide (c.umbral_velocidad < c.velocidad), causa_velocidad_excesiva),
   (decide (c.umbral_fuerza < c.fuerza), causa_fuerza_excesiva)]

/-- Spec-side first-match evaluation: the first check of `causa_checks` whose
condition holds gives the cause, otherwise `causas_ninguna`. -/
def Condiciones_Seguridad.primera_causa (c : Condiciones_Seguridad) : Causa_Seguridad :=
  match c.causa_checks.find? (fun p => p.1) with
  | some p => p.2
  | none => causas_ninguna

/-- The six freshly read sensor values consumed by
`Condiciones_Seguridad::actualizacion`.  Modelled from the spec: the
sensor-read functions are not implemented in the repository (the file ends
with "IMPLEMENTAR FUNCIONES PARA LA LECTURA DE LAS VARIABLES" and the local
reads in `actualizacion` have empty initializers), so the freshly read values
are taken as explicit inputs; per the spec, `update(...)` "overwrites the six
stored readings". -/
structure Lecturas where
  corriente : ℚ
  temperatura : ℚ
  velocidad : ℚ
  fuerza : ℚ
  senal : Bool
  posicion : Bool
deriving DecidableEq

/-- `Condiciones_Seguridad::actualizacion` (lines 168-184): overwrite the six
stored readings with the freshly read values. -/
def Condiciones_Seguridad.actualizacion (c : Condiciones_Seguridad) (l : Lecturas) :
    Condiciones_Seguridad :=
  { c with corriente_motores := l.corriente
           temperatura := l.temperatura
           velocidad := l.velocidad
           fuerza := l.fuerza
           senal_sensores := l.senal
           posicion := l.posicion }

/-- `struct Maquina_de_estados_protesis` (src/main/maquina_de_estados_esquizofrenica.h). -/
structure Maquina_de_estados_protesis where
  estado_actual : Estado_Protesis
  fase_actual : Fase_Estado
  error_actual : Causa_Seguridad
  condiciones : Condiciones_Seguridad
  en_seguridad : Bool
  problema_resuelto : Bool
deriving DecidableEq

/-- The `Maquina_de_estados_protesis` constructor (lines 207-214). -/
def Maquina_de_estados_protesis.init : Maquina_de_estados_protesis :=
  { estado_actual := ESTADO_NORMAL
    fase_actual := FASE_PAUSA
    error_actual := causas_ninguna
    condiciones := Condiciones_Seguridad.init
    en_seguridad := false
    problema_resuelto := true }

/-- `Maquina_de_estados_protesis::ActivarSeguridad` (lines 251-272).  The
source guards the body with `if (ComprobacionSeguridad)`, which tests the
member function itself (not a call) and is therefore always true, so the body
runs unconditionally; the same body is unconditional in the draft at
src/unnamed/part_002 lines 285-301. -/
def Maquina_de_estados_protesis.ActivarSeguridad (m : Maquina_de_estados_protesis)
    (causa : Causa_Seguridad) : Maquina_de_estados_protesis :=
  { m with estado_actual := ESTADO_SEGURIDAD
           error_actual := causa
           en_seguridad := true
           problema_resuelto := false
           fase_actual := if causa = causa_fuerza_excesiva then FASE_PASO_1 else FASE_PASO_2 }

/-- `Maquina_de_estados_protesis::Comprobacion_Problema` (lines 278-373): when
latched in safety, refresh the stored readings (`condiciones.actualizacion`)
and recompute `problema_resuelto` by comparing the active cause's measurement
against its threshold with `<=`; when not in safety it returns immediately
without touching the state.  `l` carries the freshly read sensor values (see
`Lecturas`). -/
def Maquina_de_estados_protesis.Comprobacion_Problema (m : Maquina_de_estados_protesis)
    (l : Lecturas) : Maquina_de_estados_protesis :=
  if m.en_seguridad = false then m
  else
    let c := m.condiciones.actualizacion l
    let resuelto :=
      match m.error_actual with
      | causa_sobrecorriente => decide (c.corriente_motores ≤ c.umbral_corriente)
      | causa_sobrecalentameinto => decide (c.temperatura ≤ c.umbral_temperatura)
      | causa_velocidad_excesiva => decide (c.velocidad ≤ c.umbral_velocidad)
      | causa_fuerza_excesiva => decide (c.fuerza ≤ c.umbral_fuerza)
      | causa_perdida_sensores => c.senal_sensores
      | causa_error_encoder => c.posicion
      | causas_ninguna => true
    { m with condiciones := c, problema_resuelto := resuelto }

/-- `Maquina_de_estados_protesis::cambiarEstado` (lines 379-385): when not in
safety, set `estado_actual` to the requested state; otherwise do nothing.
(The phase is not touched by this function.) -/
def Maquina_de_estados_protesis.cambiarEstado (m : Maquina_de_estados_protesis)
    (nuevo_estado : Estado_Protesis) : Maquina_de_estados_protesis :=
  if m.en_seguridad = false then { m with estado_actual := nuevo_estado } else m

/-- `Maquina_de_estados_protesis::cambiarFase` (lines 391-420): when not in
safety, set the requested phase; when in safety, advance
`FASE_PASO_1 → FASE_PASO_2 → FASE_CAMBIO_ESTADO`, and at `FASE_CAMBIO_ESTADO`,
if the stored `problema_resuelto` flag is set, clear `en_seguridad` and call
`cambiarEstado(ESTADO_NORMAL)`; the switch has no case for `FASE_PAUSA`. -/
def Maquina_de_estados_protesis.cambiarFase (m : Maquina_de_estados_protesis)
    (nueva_fase : Fase_Estado) : Maquina_de_estados_protesis :=
  if m.en_seguridad = false then { m with fase_actual := nueva_fase }
  else
    match m.fase_actual with
    | FASE_PASO_1 => { m with fase_actual := FASE_PASO_2 }
    | FASE_PASO_2 => { m with fase_actual := FASE_CAMBIO_ESTADO }
    | FASE_CAMBIO_ESTADO =>
        if m.problema_resuelto = true then
          Maquina_de_estados_protesis.cambiarEstado { m with en_seguridad := false } ESTADO_NORMAL
        else m
    | FASE_PAUSA => m

/-- `margenPresion` in `checkMotorPressure` (src/main/activacion_motores.h). -/
def margenPresion : Nat := 1

/-- The static locals of `checkMotorPressure` (src/main/activacion_motores.h
lines 74-105): the remembered previous position and the pressure-timer start
value (`0` meaning "timer not running"). -/
structure PresionEstado where
  posicionAnterior : Nat
  tiempoPresion : Nat
deriving DecidableEq

/-- `checkMotorPressure` (src/main/activacion_motores.h lines 74-105).
`posicionActual` is the value read from the motor position and `now` the value
of `esp_timer_get_time()` during this poll (microseconds; the model assumes
the clock is monotone, so the unsigned elapsed-time subtraction agrees with
`Nat` subtraction).  Returns the new static state and the poll's result. -/
def checkMotorPressure (s : PresionEstado) (posicionActual now : Nat) :
    PresionEstado × Bool :=
  let limiteInferior :=
    if margenPresion < s.posicionAnterior then s.posicionAnterior - margenPresion else 0
  let limiteSuperior := s.posicionAnterior + margenPresion
  if limiteInferior ≤ posicionActual ∧ posicionActual ≤ limiteSuperior then
    if s.tiempoPresion = 0 then
      ({ posicionAnterior := posicionActual, tiempoPresion := now }, false)
    else if 3000000 ≤ now - s.tiempoPresion then
      ({ s with tiempoPresion := 0 }, true)
    else
      ({ s with posicionAnterior := posicionActual }, false)
  else
    ({ posicionAnterior := posicionActual, tiempoPresion := now }, false)

/-- The in-band test of `checkMotorPressure`: the current position lies within
`[posicionAnterior - margenPresion, posicionAnterior + margenPresion]`, the
lower bound clamped at 0. -/
def PresionEstado.enMargen (s : PresionEstado) (posicionActual : Nat) : Prop :=
  (if margenPresion < s.posicionAnterior then s.posicionAnterior - margenPresion else 0)
      ≤ posicionActual ∧ posicionActual ≤ s.posicionAnterior + margenPresion

instance (s : PresionEstado) (p : Nat) : Decidable (s.enMargen p) := by
  unfold PresionEstado.enMargen; infer_instance

/-- One `step` leaves the configured bounds untouched, and keeps the position
inside `[min_pos, max_pos]` whenever it starts there. -/
theorem motorController.step_fields (m : motorController) (A B : Bool) :
    (m.step A B).min_pos = m.min_pos ∧ (m.step A B).max_pos = m.max_pos ∧
    (m.min_pos ≤ m.position → m.position ≤ m.max_pos →
      m.min_pos ≤ (m.step A B).position ∧ (m.step A B).position ≤ m.max_pos) := by
  obtain ⟨maxp, minp, ls, pos, u, ob, du, phl⟩ := m
  simp only [motorController.step, motorController.stop_rotation]
  split_ifs <;> simp_all <;> omega

/-- `stepMany` folds `step` over a list of recorded (channel A, channel B)
edge-event readings. -/
def motorController.stepMany (m : motorController) (evs : List (Bool × Bool)) :
    motorController :=
  evs.foldl (fun s e => s.step e.1 e.2) m

/-- C1: for every position state within `[min_pos, max_pos]` and every sequence
of encoder edge events processed by `step`, the resulting position stays within
`[min_pos, max_pos]`: the increment is refused at `max_pos` and the decrement
at `min_pos`, never wrapping. -/
theorem C1_position_never_leaves_bounds (m : motorController) (evs : List (Bool × Bool))
    (h1 : m.min_pos ≤ m.position) (h2 : m.position ≤ m.max_pos) :
    m.min_pos ≤ (m.stepMany evs).position ∧ (m.stepMany evs).position ≤ m.max_pos := by
  induction evs generalizing m with
  | nil => exact ⟨h1, h2⟩
  | cons e t ih =>
      obtain ⟨hmin, hmax, hpos⟩ := motorController.step_fields m e.1 e.2
      obtain ⟨hb1, hb2⟩ := hpos h1 h2
      have : m.stepMany (e :: t) = (m.step e.1 e.2).stepMany t := rfl
      rw [this]
      obtain ⟨g1, g2⟩ := ih (m.step e.1 e.2) (hmin ▸ hb1) (hmax ▸ hb2)
      exact ⟨hmin ▸ g1, hmax ▸ g2⟩

/-- Witness for C1 at the configured travel range `min_pos = 0`,
`max_pos = 4230`, position 100, after one recorded edge event. -/
theorem C1_witness :
    (0 : Nat) ≤ ((⟨4230, 0, false, 100, false, 0, 0, false⟩ : motorController).stepMany
        [(true, true)]).position ∧
      ((⟨4230, 0, false, 100, false, 0, 0, false⟩ : motorController).stepMany
        [(true, true)]).position ≤ 4230 :=
  C1_position_never_leaves_bounds ⟨4230, 0, false, 100, false, 0, 0, false⟩
    [(true, true)] (by decide) (by decide)

/-- C4: one decode step behaves exactly as specified: if channel A equals the
stored last state the position is unchanged; otherwise equal channels decrement
the position when it exceeds `min_pos` (else leave it), and unequal channels
increment it when it is below `max_pos` (else leave it); the stored last state
becomes channel A unconditionally; and if a rotate-until target was armed and
the updated position equals the objective, the drive duty is 0 when the step
returns. -/
theorem C4_step_exact (m : motorController) (A B : Bool) :
    (m.step A B).last_state = A ∧
    (m.step A B).position =
      (if A = m.last_state then m.position
       else if B = A then (if m.min_pos < m.position then m.position - 1 else m.position)
       else (if m.position < m.max_pos then m.position + 1 else m.position)) ∧
    (m.«until» = true → (m.step A B).position = m.objective → (m.step A B).duty = 0) := by
  obtain ⟨maxp, minp, ls, pos, u, ob, du, phl⟩ := m
  simp only [motorController.step, motorController.stop_rotation]
  split_ifs <;> simp_all

/-- Witness for C4: a step with the until target armed, which decrements the
position onto the objective and forces the duty to 0. -/
theorem C4_witness :
    ((⟨10, 0, false, 5, true, 4, 7, false⟩ : motorController).step true true).duty = 0 :=
  (C4_step_exact ⟨10, 0, false, 5, true, 4, 7, false⟩ true true).2.2 (by decide) (by decide)

/-- C5: `start_rotation` toward Open at `min_pos` (and toward Close at
`max_pos`) reports arrived-at-limit and issues a stop — duty 0, until flag
cleared, position untouched — regardless of the requested velocity. -/
theorem C5_rotation_refused_at_limit (m : motorController) (v : Nat) :
    (m.position = m.min_pos →
      m.start_rotation ABRIR v = (m.stop_rotation, true) ∧
      (m.start_rotation ABRIR v).1.duty = 0 ∧
      (m.start_rotation ABRIR v).1.«until» = false ∧
      (m.start_rotation ABRIR v).1.position = m.position) ∧
    (m.position = m.max_pos →
      m.start_rotation CERRAR v = (m.stop_rotation, true) ∧
      (m.start_rotation CERRAR v).1.duty = 0 ∧
      (m.start_rotation CERRAR v).1.«until» = false ∧
      (m.start_rotation CERRAR v).1.position = m.position) := by
  obtain ⟨maxp, minp, ls, pos, u, ob, du, phl⟩ := m
  constructor <;> intro h <;>
    simp_all [motorController.start_rotation, motorController.stop_rotation, ABRIR, CERRAR]

/-- Witness for C5: fully open motor (`position = min_pos = 0`), a
rotate-open command at velocity 200 stops the drive and reports the limit. -/
theorem C5_witness :
    (⟨4230, 0, false, 0, true, 7, 9, true⟩ : motorController).start_rotation ABRIR 200 =
      ((⟨4230, 0, false, 0, true, 7, 9, true⟩ : motorController).stop_rotation, true) :=
  ((C5_rotation_refused_at_limit ⟨4230, 0, false, 0, true, 7, 9, true⟩ 200).1 (by decide)).1

/-- Closed form of `start_until`: either it re-arms the target and delegates
the drive to `start_rotation`, or it disarms and stops. -/
theorem motorController.start_until_eq (m : motorController) (d : Bool) (o v : Nat) :
    m.start_until d o v =
      if d = ABRIR then
        (if o < m.position then
          (if m.min_pos < m.position then
            ({ m with objective := o, «until» := true, duty := v, ph := d }, false)
           else ({ m with objective := o, «until» := false, duty := 0 }, true))
         else ({ m with objective := o, «until» := false, duty := 0 }, true))
      else
        (if m.position < o then
          (if m.position < m.max_pos then
            ({ m with objective := o, «until» := true, duty := v, ph := d }, false)
           else ({ m with objective := o, «until» := false, duty := 0 }, true))
         else ({ m with objective := o, «until» := false, duty := 0 }, true)) := by
  obtain ⟨maxp, minp, ls, pos, u, ob, du, phl⟩ := m
  simp only [motorController.start_until, motorController.start_rotation,
    motorController.stop_rotation]
  split_ifs <;> rfl

/-- C6: `start_until` is idempotent — a repeated call without an intervening
position change returns the same state and the same boolean — and once the
position has reached or passed the objective in the requested direction the
call disarms the target, leaves the duty at 0 and returns true. -/
theorem C6_start_until_idempotent (m : motorController) (d : Bool) (o v : Nat) :
    (m.start_until d o v).1.start_until d o v = m.start_until d o v ∧
    ((if d = ABRIR then m.position ≤ o else o ≤ m.position) →
      (m.start_until d o v).2 = true ∧
      (m.start_until d o v).1.«until» = false ∧
      (m.start_until d o v).1.duty = 0) := by
  obtain ⟨maxp, minp, ls, pos, u, ob, du, phl⟩ := m
  simp only [motorController.start_until_eq, ABRIR]
  cases d <;> split_ifs <;> simp_all

/-- Witness for C6: with the position already at the objective (Close toward
4230 while standing at 4230), the call returns true, disarms and keeps duty 0;
repeating the call gives the identical result. -/
theorem C6_witness :
    ((⟨4230, 0, false, 4230, true, 9, 3, false⟩ : motorController).start_until CERRAR 4230 120).2
        = true ∧
      ((⟨4230, 0, false, 4230, true, 9, 3, false⟩ : motorController).start_until
          CERRAR 4230 120).1.start_until CERRAR 4230 120 =
        (⟨4230, 0, false, 4230, true, 9, 3, false⟩ : motorController).start_until CERRAR 4230 120 :=
  ⟨((C6_start_until_idempotent ⟨4230, 0, false, 4230, true, 9, 3, false⟩ CERRAR 4230 120).2
      (by decide)).1,
   (C6_start_until_idempotent ⟨4230, 0, false, 4230, true, 9, 3, false⟩ CERRAR 4230 120).1⟩

/-- C7: `Verificar_Causas` returns the first matching cause in the fixed order
sensor loss, encoder fault, overcurrent, overtemperature, excessive speed,
excessive force, and `causas_ninguna` when no check matches; in particular a
current of 3.0 against the default threshold 2.0 with all other readings
nominal yields overcurrent, and a current of 1.0 afterwards yields none. -/
theorem C7_first_matching_cause :
    (∀ c : Condiciones_Seguridad, c.Verificar_Causas = c.primera_causa) ∧
    ({ Condiciones_Seguridad.init with corriente_motores := 3 }).Verificar_Causas
        = causa_sobrecorriente ∧
    ({ Condiciones_Seguridad.init with corriente_motores := 1 }).Verificar_Causas
        = causas_ninguna := by
  refine ⟨fun c => ?_, by decide, by decide⟩
  obtain ⟨co, te, ve, fu, se, po, uc, ut, uv, uf⟩ := c
  simp only [Condiciones_Seguridad.Verificar_Causas, Condiciones_Seguridad.primera_causa,
    Condiciones_Seguridad.causa_checks, List.find?]
  cases se <;> cases po <;> split_ifs <;> simp_all [not_lt, decide_eq_false, decide_eq_true]

/-- C8: `ActivarSeguridad` always enters the safety mode with the recorded
cause, latches `en_seguridad`, clears `problema_resuelto`, and picks the entry
phase from the cause alone: `FASE_PASO_1` for excessive force, `FASE_PASO_2`
for every other cause. -/
theorem C8_safety_entry_phase (m : Maquina_de_estados_protesis) (causa : Causa_Seguridad) :
    (m.ActivarSeguridad causa).estado_actual = ESTADO_SEGURIDAD ∧
    (m.ActivarSeguridad causa).error_actual = causa ∧
    (m.ActivarSeguridad causa).en_seguridad = true ∧
    (m.ActivarSeguridad causa).problema_resuelto = false ∧
    (m.ActivarSeguridad causa).fase_actual =
      (if causa = causa_fuerza_excesiva then FASE_PASO_1 else FASE_PASO_2) :=
  ⟨rfl, rfl, rfl, rfl, rfl⟩

/-- C2: while `en_seguridad` is latched, any sequence of `cambiarEstado` calls
(with arbitrary requested modes) leaves the machine state — in particular the
current mode — completely unchanged. -/
theorem C2_change_mode_locked (m : Maquina_de_estados_protesis)
    (es : List Estado_Protesis) (h : m.en_seguridad = true) :
    es.foldl Maquina_de_estados_protesis.cambiarEstado m = m := by
  induction es with
  | nil => rfl
  | cons e t ih =>
      have h1 : m.cambiarEstado e = m := by
        simp [Maquina_de_estados_protesis.cambiarEstado, h]
      calc (e :: t).foldl Maquina_de_estados_protesis.cambiarEstado m
          = t.foldl Maquina_de_estados_protesis.cambiarEstado (m.cambiarEstado e) := rfl
        _ = m := by rw [h1]; exact ih

/-- Witness for C2: a machine latched in safety after an overcurrent keeps the
Safety mode across change-mode requests to Normal and Rest. -/
theorem C2_witness :
    [ESTADO_NORMAL, ESTADO_DESCANSO].foldl Maquina_de_estados_protesis.cambiarEstado
        (Maquina_de_estados_protesis.init.ActivarSeguridad causa_sobrecorriente) =
      Maquina_de_estados_protesis.init.ActivarSeguridad causa_sobrecorriente :=
  C2_change_mode_locked (Maquina_de_estados_protesis.init.ActivarSeguridad causa_sobrecorriente)
    [ESTADO_NORMAL, ESTADO_DESCANSO] (by decide)

/-- C9 (code-bug demonstration): with `en_seguridad` false, `cambiarEstado`
sets the requested mode but leaves the phase untouched — here a machine in
`(Normal, Step2)` asked to change to Rest ends in `(Rest, Step2)`, not
`(Rest, Pause)` as the function's own doc comment ("reinicia la fase a
FASE_PAUSA") and the draft `maquina_cambiarEstado` (src/unnamed/part_001)
prescribe. -/
theorem C9_phase_not_reset :
    ((Maquina_de_estados_protesis.init.cambiarFase FASE_PASO_2).cambiarEstado
        ESTADO_DESCANSO).estado_actual = ESTADO_DESCANSO ∧
    ((Maquina_de_estados_protesis.init.cambiarFase FASE_PASO_2).cambiarEstado
        ESTADO_DESCANSO).fase_actual = FASE_PASO_2 := by
  decide

/-- C3 is false as stated.  First input: `(Safety, StateChange)` with the
stored `problema_resuelto` flag already true — the phase advance leaves
`error_actual` latched at overtemperature and the phase at
`FASE_CAMBIO_ESTADO`, while the claim requires `active_cause = None` and phase
`Pause`.  Second input: the overtemperature reading already back at 50 with
threshold 60 but the stored flag still false — the advance leaves the machine
in Safety, while the claim requires the advance itself to re-check the
measurement with `≤` and exit. -/
theorem C3_counterexample :
    (((⟨ESTADO_SEGURIDAD, FASE_CAMBIO_ESTADO, causa_sobrecalentameinto,
          Condiciones_Seguridad.init, true, true⟩ :
        Maquina_de_estados_protesis).cambiarFase FASE_PAUSA).error_actual
          = causa_sobrecalentameinto ∧
      ((⟨ESTADO_SEGURIDAD, FASE_CAMBIO_ESTADO, causa_sobrecalentameinto,
          Condiciones_Seguridad.init, true, true⟩ :
        Maquina_de_estados_protesis).cambiarFase FASE_PAUSA).fase_actual
          = FASE_CAMBIO_ESTADO) ∧
    (((⟨ESTADO_SEGURIDAD, FASE_CAMBIO_ESTADO, causa_sobrecalentameinto,
          { Condiciones_Seguridad.init with temperatura := 50 }, true, false⟩ :
        Maquina_de_estados_protesis).cambiarFase FASE_PAUSA).estado_actual
          = ESTADO_SEGURIDAD ∧
      ((⟨ESTADO_SEGURIDAD, FASE_CAMBIO_ESTADO, causa_sobrecalentameinto,
          { Condiciones_Seguridad.init with temperatura := 50 }, true, false⟩ :
        Maquina_de_estados_protesis).cambiarFase FASE_PAUSA).en_seguridad = true) := by
  decide

/-- C3 amended: at `(Safety, StateChange)` a phase-advance request consults the
stored `problema_resuelto` flag (it does not re-read the sensors); if the flag
is true it clears `en_seguridad` and moves the mode to Normal, leaving the
phase at `FASE_CAMBIO_ESTADO` and `error_actual` unchanged; if the flag is
false the machine stays exactly at `(Safety, StateChange)`.  The flag itself is
recomputed only by `Comprobacion_Problema`, which compares the active cause's
freshly read measurement against its stored threshold with `≤`. -/
theorem C3_statechange_amended (m : Maquina_de_estados_protesis) (f : Fase_Estado)
    (hseg : m.en_seguridad = true) (hfase : m.fase_actual = FASE_CAMBIO_ESTADO) :
    (m.problema_resuelto = true →
      m.cambiarFase f = { m with en_seguridad := false, estado_actual := ESTADO_NORMAL }) ∧
    (m.problema_resuelto = false → m.cambiarFase f = m) ∧
    (∀ l : Lecturas,
      (m.Comprobacion_Problema l).problema_resuelto =
        match m.error_actual with
        | causa_sobrecorriente => decide (l.corriente ≤ m.condiciones.umbral_corriente)
        | causa_sobrecalentameinto => decide (l.temperatura ≤ m.condiciones.umbral_temperatura)
        | causa_velocidad_excesiva => decide (l.velocidad ≤ m.condiciones.umbral_velocidad)
        | causa_fuerza_excesiva => decide (l.fuerza ≤ m.condiciones.umbral_fuerza)
        | causa_perdida_sensores => l.senal
        | causa_error_encoder => l.posicion
        | causas_ninguna => true) := by
  obtain ⟨es, fa, er, co, seg, pr⟩ := m
  simp only at hseg hfase
  subst hseg; subst hfase
  refine ⟨?_, ?_, ?_⟩
  · intro hpr
    simp only at hpr
    subst hpr
    simp [Maquina_de_estados_protesis.cambiarFase, Maquina_de_estados_protesis.cambiarEstado]
  · intro hpr
    simp only at hpr
    subst hpr
    simp [Maquina_de_estados_protesis.cambiarFase]
  · intro l
    cases er <;>
      simp [Maquina_de_estados_protesis.Comprobacion_Problema,
        Condiciones_Seguridad.actualizacion]

/-- Witness for C3 (amended): the spec scenario — `(Safety, StateChange)` with
cause overtemperature and the stored flag false stays put. -/
theorem C3_witness :
    (⟨ESTADO_SEGURIDAD, FASE_CAMBIO_ESTADO, causa_sobrecalentameinto,
        Condiciones_Seguridad.init, true, false⟩ :
      Maquina_de_estados_protesis).cambiarFase FASE_PAUSA =
    ⟨ESTADO_SEGURIDAD, FASE_CAMBIO_ESTADO, causa_sobrecalentameinto,
        Condiciones_Seguridad.init, true, false⟩ :=
  (C3_statechange_amended
      ⟨ESTADO_SEGURIDAD, FASE_CAMBIO_ESTADO, causa_sobrecalentameinto,
        Condiciones_Seguridad.init, true, false⟩ FASE_PAUSA rfl rfl).2.1 rfl

/-- A poll whose pressure-timer is not running (stored value 0) never returns
true: it either starts the timer or merely refreshes the remembered position. -/
theorem checkMotorPressure_not_running (s : PresionEstado) (c n : Nat)
    (h : s.tiempoPresion = 0) : (checkMotorPressure s c n).2 = false := by
  obtain ⟨prev, t⟩ := s
  simp only at h
  subst h
  simp only [checkMotorPressure]
  split_ifs <;> simp_all

/-- C10 is false as stated.  First input: an in-band poll whose timer has run
3 s returns true but leaves the remembered previous position at 5 instead of
updating it to the current position 6, contradicting "previous is updated to
the current Position at the end of every poll".  Second input: a poll outside
the band (claimed to reset the timer) actually restarts the timer at the
current time, so the very next in-band poll — without any 3-second in-band
window — already returns true. -/
theorem C10_counterexample :
    (checkMotorPressure ⟨5, 1⟩ 6 3000001 = (⟨5, 0⟩, true) ∧ (5 : Nat) ≠ 6) ∧
    checkMotorPressure (checkMotorPressure ⟨0, 0⟩ 100 10).1 100 3000011 = (⟨100, 0⟩, true) := by
  decide

/-- C10 amended: a poll returns true exactly when the position is in the band
`[previous - margin, previous + margin]` (clamped at 0), the timer is running,
and at least 3 s have elapsed since the stored timer value; a true poll clears
the timer and leaves the remembered previous position unchanged, so any
immediately following poll returns false (a fresh window is required); a false
poll updates previous to the current position; an out-of-band poll restarts
the timer at the current time; an in-band poll with the timer not running
starts it at the current time. -/
theorem C10_stall_poll_amended (s : PresionEstado) (cur now : Nat) :
    ((checkMotorPressure s cur now).2 = true ↔
      s.enMargen cur ∧ s.tiempoPresion ≠ 0 ∧ 3000000 ≤ now - s.tiempoPresion) ∧
    ((checkMotorPressure s cur now).2 = true →
      (checkMotorPressure s cur now).1 = ⟨s.posicionAnterior, 0⟩) ∧
    ((checkMotorPressure s cur now).2 = false →
      (checkMotorPressure s cur now).1.posicionAnterior = cur) ∧
    (¬ s.enMargen cur → (checkMotorPressure s cur now).1.tiempoPresion = now) ∧
    (s.enMargen cur → s.tiempoPresion = 0 →
      (checkMotorPressure s cur now).1.tiempoPresion = now) ∧
    ((checkMotorPressure s cur now).2 = true → ∀ c2 n2,
      (checkMotorPressure (checkMotorPressure s cur now).1 c2 n2).2 = false) := by
  obtain ⟨prev, t⟩ := s
  simp only [checkMotorPressure, PresionEstado.enMargen, margenPresion]
  split_ifs <;> simp_all [checkMotorPressure_not_running]

/-- Witness for C10 (amended): a poll at position 5, timer started at 1 µs,
clock now at 3000001 µs (3 s elapsed) clears the timer and keeps the
remembered position. -/
theorem C10_witness :
    (checkMotorPressure ⟨5, 1⟩ 5 3000001).1 = (⟨5, 0⟩ : PresionEstado) :=
  (C10_stall_poll_amended ⟨5, 1⟩ 5 3000001).2.1 (by decide)
